import Mathlib

/-!
Shallow embedding of `src/listen-for-shutdown.py` (pi-shutdown-button).

The script monitors GPIO pin 3 on a Raspberry Pi and, on a debounced
button press, broadcasts a warning, syncs filesystems and halts the host.
We model the observable behaviour of each Python function as a pure Lean
function producing a trace of external actions plus an optional propagated
exception, and prove the claims of the specification about these models.

Conventions:
* A pin level is a `Nat` (`1` = high, `0` = low), mirroring
  `GPIO.input` returning `1`/`0` and the comparisons `prev_state == 1`,
  `current_state == 0` in the source.
* A Python exception is modelled by its class name together with its
  position in the built-in hierarchy: `RuntimeError` (caught by
  `except RuntimeError`), another subclass of `Exception` (caught by
  `except Exception` but not by `except RuntimeError`), or a
  `BaseException` that is not an `Exception` (such as `SystemExit` or
  `KeyboardInterrupt`, caught by neither handler).
* `subprocess.run(argv)` is called without `check=True`: a command that
  starts and exits (with any status) returns normally; only a failure to
  spawn the command (e.g. `FileNotFoundError`) raises.
-/

namespace PiShutdown

/-- Where a Python exception class sits in the built-in hierarchy. -/
inductive ExcClass where
  | runtimeError
  | otherException
  | baseExceptionOnly
  deriving DecidableEq, Repr

/-- A Python exception: class name plus hierarchy position. -/
structure Exc where
  name : String
  cls : ExcClass
  deriving DecidableEq, Repr

/-- Whether `except RuntimeError` catches this exception. -/
def Exc.isRuntimeError (e : Exc) : Bool := e.cls = ExcClass.runtimeError

/-- Whether `except Exception` catches this exception. -/
def Exc.isException (e : Exc) : Bool := e.cls ≠ ExcClass.baseExceptionOnly

/-- Outcome of one `subprocess.run(argv)` call: the spawned command exited
with some status code, or spawning raised an exception. -/
inductive CmdOutcome where
  | exit (code : Int)
  | spawnFail (e : Exc)
  deriving DecidableEq, Repr

/-- `true` iff the command was spawned and ran to completion. -/
def CmdOutcome.isExit : CmdOutcome → Bool
  | CmdOutcome.exit _ => true
  | CmdOutcome.spawnFail _ => false

/-- Internal pull resistor configuration passed to `GPIO.setup`
(`PUD_OFF` is the RPi.GPIO default when `pull_up_down` is omitted). -/
inductive Pud where
  | off
  | up
  | down
  deriving DecidableEq, Repr

/-- Observable actions the script performs on its environment. -/
inductive Act where
  | print (s : String)
  | runCmd (argv : List String)
  | gpioCleanup
  | gpioSetmode
  | gpioSetup (pud : Pud)
  | addEventDetect
  | removeEventDetect
  | registerSignal (sig : String)
  deriving DecidableEq, Repr

def wallCmd : List String := ["sudo", "wall", "Shutdown initiated by button press."]

def syncCmd : List String := ["sudo", "sync"]

def haltCmd : List String := ["sudo", "halt"]

def shutdownBanner : String := "Button press detected. Initiating shutdown..."

/-- Outcomes of the three `subprocess.run` calls made by one invocation of
`shutdown_system` (`wall`, `sync`, `halt` in that order). -/
structure CmdEnv where
  wall : CmdOutcome
  sync : CmdOutcome
  halt : CmdOutcome
  deriving DecidableEq, Repr

/-- A `CmdEnv` in which every command spawns and exits successfully. -/
def cmdsOk : CmdEnv := ⟨CmdOutcome.exit 0, CmdOutcome.exit 0, CmdOutcome.exit 0⟩

/-- Model of `shutdown_system` (source lines 42-48): print a banner, then
run `sudo wall …`, `sudo sync`, `sudo halt` via `subprocess.run` without
`check`, so exit statuses are ignored; a spawn failure raises out of the
function, skipping the remaining calls.  Returns the action trace and the
propagated exception, if any. -/
def shutdown_system (env : CmdEnv) : List Act × Option Exc :=
  let t1 : List Act := [Act.print shutdownBanner, Act.runCmd wallCmd]
  match env.wall with
  | CmdOutcome.spawnFail e => (t1, some e)
  | CmdOutcome.exit _ =>
    let t2 : List Act := t1 ++ [Act.runCmd syncCmd]
    match env.sync with
    | CmdOutcome.spawnFail e => (t2, some e)
    | CmdOutcome.exit _ =>
      let t3 : List Act := t2 ++ [Act.runCmd haltCmd]
      match env.halt with
      | CmdOutcome.spawnFail e => (t3, some e)
      | CmdOutcome.exit _ => (t3, none)

/-- The full action trace of a failure-free `shutdown_system` invocation. -/
def shutdownTrace : List Act :=
  [Act.print shutdownBanner, Act.runCmd wallCmd, Act.runCmd syncCmd, Act.runCmd haltCmd]

/-- Number of `shutdown_system` invocations visible in a trace: each
invocation unconditionally prints the banner first. -/
def shutdownStarts (acts : List Act) : Nat :=
  acts.count (Act.print shutdownBanner)

/-- Number of external commands run in a trace. -/
def isRunAct : Act → Bool
  | Act.runCmd _ => true
  | _ => false

/-- Model of `button_callback` (source lines 50-60): after the debounce
sleep, if the global `shutdown_triggered` flag is still false, set it and
call `shutdown_system` once; otherwise do nothing.  Takes the current flag
value and returns the new flag value and the number of `shutdown_system`
invocations made by this call. -/
def button_callback (shutdown_triggered : Bool) : Bool × Nat :=
  if !shutdown_triggered then (true, 1) else (shutdown_triggered, 0)

/-- Runs `n` successive `button_callback` invocations (the edge-detection
path delivers one callback per collapsed falling-edge notification),
threading the `shutdown_triggered` flag; returns the total number of
`shutdown_system` invocations. -/
def runCallbacks : Bool → Nat → Nat
  | _, 0 => 0
  | st, n + 1 =>
    let r := button_callback st
    r.2 + runCallbacks r.1 n

/-- Model of `cleanup_handler` (source lines 62-65), the handler installed
for SIGTERM and SIGINT: `GPIO.cleanup()` then `sys.exit(0)`. -/
def cleanup_handler (signum : Nat) (frame : Unit) : List Act × Nat :=
  ([Act.gpioCleanup], 0)

/-- One value returned by a `GPIO.input(BUTTON_PIN)` call in the polling
path: either a pin level or a raised exception. -/
inductive PollRead where
  | val (level : Nat)
  | err (e : Exc)
  deriving DecidableEq, Repr

/-- How the polling loop body stopped being observed: the supplied read
trace ran out (the loop itself is unbounded), or a call inside the `try`
block raised an exception. -/
inductive LoopRes where
  | ended
  | raised (e : Exc)
  deriving DecidableEq, Repr

/-- Model of the `while True` body of `poll_button` (source lines 73-85).
`prev` is `prev_state`; each `GPIO.input` call consumes the next entry of
`reads`.  On `prev_state == 1 and current_state == 0` the code sleeps
50 ms, re-samples (consuming another read), and calls `shutdown_system`
only if the re-sample is still `0`; in every case the next iteration
continues with `prev_state = current_state`.  Returns the actions emitted
inside the loop and how the loop stopped. -/
def pollLoop (env : CmdEnv) : Nat → List PollRead → List Act × LoopRes
  | _, [] => ([], LoopRes.ended)
  | _, PollRead.err e :: _ => ([], LoopRes.raised e)
  | prev, PollRead.val cur :: rest =>
    if prev = 1 ∧ cur = 0 then
      match rest with
      | [] => ([], LoopRes.ended)
      | PollRead.err e :: _ => ([], LoopRes.raised e)
      | PollRead.val re :: rest2 =>
        if re = 0 then
          let s := shutdown_system env
          match s.2 with
          | some e => (s.1, LoopRes.raised e)
          | none =>
            let r := pollLoop env cur rest2
            (s.1 ++ r.1, r.2)
        else
          pollLoop env cur rest2
    else
      pollLoop env cur rest

def pollBanner : String := "Using polling method for button detection..."

/-- Model of `poll_button` (source lines 67-89): print the banner, take the
initial `prev_state = GPIO.input(BUTTON_PIN)` reading (note: this happens
before the `try`, so an exception there propagates without the `finally`
cleanup), then run the loop inside `try … except Exception … finally
GPIO.cleanup()`.  An exception deriving from `Exception` is caught and
logged and the function returns normally; any other exception propagates
after the `finally` cleanup. -/
def poll_button (env : CmdEnv) (r0 : PollRead) (reads : List PollRead) :
    List Act × Option Exc :=
  match r0 with
  | PollRead.err e => ([Act.print pollBanner], some e)
  | PollRead.val p0 =>
    let r := pollLoop env p0 reads
    match r.2 with
    | LoopRes.ended => (Act.print pollBanner :: r.1 ++ [Act.gpioCleanup], none)
    | LoopRes.raised e =>
      if e.isException then
        (Act.print pollBanner :: r.1 ++
          [Act.print ("Error in polling loop: " ++ e.name), Act.gpioCleanup], none)
      else
        (Act.print pollBanner :: r.1 ++ [Act.gpioCleanup], some e)

/-- How the modelled `main` ends: `sys.exit`/normal return with an exit
status, blocking forever in the event-detection idle loop, or an exception
propagating out of `main`. -/
inductive MainOutcome where
  | exited (code : Nat)
  | monitoring
  | raisedOut (e : Exc)
  deriving DecidableEq, Repr

/-- Environment for one run of `main`: the effective uid, the outcome of
`GPIO.add_event_detect` (`none` = registration succeeded), the readings
consumed by the polling fallback, and the `subprocess.run` outcomes used
by each `shutdown_system` invocation. -/
structure MEnv where
  euid : Nat
  edge : Option Exc
  r0 : PollRead
  reads : List PollRead
  cmds : CmdEnv

def rootMsg : String := "This script must be run as root (sudo). Exiting."

def setupMsg : String := "Setting up edge detection on GPIO pin 3..."

def monitorMsg : String := "Monitoring button on GPIO pin 3 using event detection..."

def fallbackMsg : String := "Falling back to polling method..."

/-- Model of `main` (source lines 91-139).  The euid check precedes all
signal registration and GPIO access; then signal handlers are registered,
a precautionary `GPIO.cleanup()` runs, and inside the outer `try` the pin
is configured with `GPIO.setup(BUTTON_PIN, GPIO.IN)` — no `pull_up_down`
argument, i.e. the default `PUD_OFF`.  The inner `try` registers falling
edge detection: on success `main` idles forever; `except RuntimeError`
logs, removes the registration and falls back to `poll_button`; any other
exception is handled by the outer `except Exception` (logged, then normal
return, exit status 0) or, for exceptions not deriving from `Exception`,
propagates out of `main` after the `finally` cleanup. -/
def mainRun (m : MEnv) : List Act × MainOutcome :=
  if m.euid ≠ 0 then
    ([Act.print rootMsg], MainOutcome.exited 1)
  else
    let pre : List Act :=
      [Act.registerSignal "SIGTERM", Act.registerSignal "SIGINT", Act.gpioCleanup,
       Act.gpioSetmode, Act.gpioSetup Pud.off, Act.print setupMsg, Act.addEventDetect]
    match m.edge with
    | none => (pre ++ [Act.print monitorMsg], MainOutcome.monitoring)
    | some e =>
      if e.isRuntimeError then
        let fb : List Act :=
          [Act.print ("Edge detection failed: " ++ e.name), Act.print fallbackMsg,
           Act.removeEventDetect]
        let p := poll_button m.cmds m.r0 m.reads
        match p.2 with
        | none => (pre ++ fb ++ p.1 ++ [Act.gpioCleanup], MainOutcome.exited 0)
        | some e2 =>
          if e2.isException then
            (pre ++ fb ++ p.1 ++
              [Act.print ("Setup error: " ++ e2.name), Act.gpioCleanup],
             MainOutcome.exited 0)
          else
            (pre ++ fb ++ p.1 ++ [Act.gpioCleanup], MainOutcome.raisedOut e2)
      else if e.isException then
        (pre ++ [Act.print ("Setup error: " ++ e.name), Act.gpioCleanup],
         MainOutcome.exited 0)
      else
        (pre ++ [Act.gpioCleanup], MainOutcome.raisedOut e)

/-- Actions that touch the GPIO pin (setup, read/registration, cleanup). -/
def isPinIO : Act → Bool
  | Act.gpioCleanup => true
  | Act.gpioSetmode => true
  | Act.gpioSetup _ => true
  | Act.addEventDetect => true
  | Act.removeEventDetect => true
  | _ => false

/-- Spec-side predicate (written from the wording of spec sections 4.3 and
8, for comparison with `pollLoop`): the read trace consists only of error
free samples in which every observed high-to-low transition is a bounce,
i.e. the debounce re-sample no longer reads low. -/
def bounceOnly : Nat → List PollRead → Bool
  | _, [] => true
  | _, PollRead.err _ :: _ => false
  | prev, PollRead.val cur :: rest =>
    if prev = 1 ∧ cur = 0 then
      match rest with
      | [] => true
      | PollRead.err _ :: _ => false
      | PollRead.val re :: rest2 => (re != 0) && bounceOnly cur rest2
    else bounceOnly cur rest

/-- Spec-side count (written from the wording of spec sections 4.3 and 8,
for comparison with `pollLoop`): the number of high-to-low transitions in
the sampled trace that are confirmed, i.e. still read low when re-sampled
after the debounce sleep.  Counting stops where the observed trace stops
(end of samples or a read error). -/
def confirmedFalls : Nat → List PollRead → Nat
  | _, [] => 0
  | _, PollRead.err _ :: _ => 0
  | prev, PollRead.val cur :: rest =>
    if prev = 1 ∧ cur = 0 then
      match rest with
      | [] => 0
      | PollRead.err _ :: _ => 0
      | PollRead.val re :: rest2 =>
        (if re = 0 then 1 else 0) + confirmedFalls cur rest2
    else confirmedFalls cur rest

/-- `FileNotFoundError`, raised by `subprocess.run` when the executable to
spawn does not exist; a subclass of `Exception` (via `OSError`). -/
def fileNotFoundExc : Exc := ⟨"FileNotFoundError", ExcClass.otherException⟩

/-- An `OSError` from the platform layer: a subclass of `Exception` that
is not a `RuntimeError`. -/
def osErrorExc : Exc := ⟨"OSError", ExcClass.otherException⟩

/-- The `RuntimeError` RPi.GPIO raises when edge detection cannot be set
up. -/
def edgeFailExc : Exc := ⟨"Failed to add edge detection", ExcClass.runtimeError⟩

/-- A `RuntimeError` from `GPIO.input` inside the polling loop. -/
def gpioReadExc : Exc := ⟨"Error reading GPIO pin", ExcClass.runtimeError⟩

/-- `SystemExit`, a `BaseException` that does not derive from
`Exception`, hence is not caught by `except Exception`. -/
def sysExitExc : Exc := ⟨"SystemExit", ExcClass.baseExceptionOnly⟩

/-- A run of `main` as root in which edge detection succeeds. -/
def mEnvRoot : MEnv := ⟨0, none, PollRead.val 1, [], cmdsOk⟩

/-- A run of `main` without root privilege. -/
def mEnvUser : MEnv := ⟨1000, none, PollRead.val 1, [], cmdsOk⟩

/-- A run of `main` as root in which `GPIO.add_event_detect` raises an
`OSError` (a platform error that is not a `RuntimeError`). -/
def mEnvOsError : MEnv := ⟨0, some osErrorExc, PollRead.val 1, [], cmdsOk⟩

/-- A run of `main` as root in which edge detection fails with
`RuntimeError` and the polling fallback then sees a `SystemExit` raised
inside the loop. -/
def mEnvSysExit : MEnv :=
  ⟨0, some edgeFailExc, PollRead.val 1, [PollRead.err sysExitExc], cmdsOk⟩

/-- A run of `main` as root in which edge detection fails with
`RuntimeError` and a pin read inside the polling loop raises a
`RuntimeError`. -/
def mEnvReadErr : MEnv :=
  ⟨0, some edgeFailExc, PollRead.val 1, [PollRead.err gpioReadExc], cmdsOk⟩

/-- A run of `main` as root in which edge detection fails with
`RuntimeError` and the polling fallback sees an idle pin. -/
def mEnvEdgeFail : MEnv := ⟨0, some edgeFailExc, PollRead.val 1, [], cmdsOk⟩

/-- A read trace with two separate sustained high-to-low transitions,
each confirmed by its debounce re-sample (initial `prev_state` read is
supplied separately as `1`). -/
def twoPressTrace : List PollRead :=
  [PollRead.val 0, PollRead.val 0, PollRead.val 1, PollRead.val 0, PollRead.val 0]

/-- Once the `shutdown_triggered` flag is set, further callbacks never
invoke `shutdown_system`. -/
theorem runCallbacks_of_true (n : Nat) : runCallbacks true n = 0 := by
  induction n with
  | zero => rfl
  | succ n ih => simpa [runCallbacks, button_callback] using ih

/-- With all three commands spawning successfully, `shutdown_system`
performs the full trace and raises nothing. -/
theorem shutdown_system_cmdsOk : shutdown_system cmdsOk = (shutdownTrace, none) := rfl

theorem shutdownStarts_nil : shutdownStarts [] = 0 := rfl

theorem shutdownStarts_append (a b : List Act) :
    shutdownStarts (a ++ b) = shutdownStarts a + shutdownStarts b := by
  simp [shutdownStarts, List.count_append]

theorem shutdownStarts_shutdownTrace : shutdownStarts shutdownTrace = 1 := by decide

/-- The polling loop (with successfully spawning commands) invokes
`shutdown_system` exactly once per confirmed high-to-low transition of
the read trace. -/
theorem pollLoop_count (prev : Nat) (reads : List PollRead) :
    shutdownStarts (pollLoop cmdsOk prev reads).1 = confirmedFalls prev reads := by
  induction prev, reads using pollLoop.induct cmdsOk with
  | case1 prev => rfl
  | case2 prev e tail => rfl
  | case3 prev cur hc =>
    obtain ⟨rfl, rfl⟩ := hc
    rfl
  | case4 prev cur hc e tail =>
    obtain ⟨rfl, rfl⟩ := hc
    rfl
  | case5 prev cur hc rest2 s e hx =>
    obtain ⟨rfl, rfl⟩ := hc
    have hs : s = (shutdownTrace, none) := rfl
    rw [hs] at hx
    simp at hx
  | case6 prev cur hc rest2 s hx ih =>
    obtain ⟨rfl, rfl⟩ := hc
    show shutdownStarts (shutdownTrace ++ (pollLoop cmdsOk 0 rest2).1) = 1 + confirmedFalls 0 rest2
    rw [shutdownStarts_append, shutdownStarts_shutdownTrace, ih]
  | case7 prev cur hc re rest2 hre ih =>
    obtain ⟨rfl, rfl⟩ := hc
    cases re with
    | zero => exact absurd rfl hre
    | succ k =>
      show shutdownStarts (pollLoop cmdsOk 0 rest2).1 = 0 + confirmedFalls 0 rest2
      simpa using ih
  | case8 prev cur rest hc ih =>
    rw [pollLoop.eq_def, confirmedFalls.eq_def]
    simp only []
    rw [if_neg hc, if_neg hc]
    exact ih

/-- On a bounce-only read trace the polling loop emits no actions at all
(in particular it never invokes `shutdown_system`). -/
theorem pollLoop_bounce_trace (env : CmdEnv) (prev : Nat) (reads : List PollRead)
    (h : bounceOnly prev reads = true) : (pollLoop env prev reads).1 = [] := by
  induction prev, reads using pollLoop.induct env with
  | case1 prev => rfl
  | case2 prev e tail => simp [bounceOnly] at h
  | case3 prev cur hc =>
    obtain ⟨rfl, rfl⟩ := hc
    rfl
  | case4 prev cur hc e tail =>
    obtain ⟨rfl, rfl⟩ := hc
    simp [bounceOnly] at h
  | case5 prev cur hc rest2 s e hx =>
    obtain ⟨rfl, rfl⟩ := hc
    simp [bounceOnly] at h
  | case6 prev cur hc rest2 s hx ih =>
    obtain ⟨rfl, rfl⟩ := hc
    simp [bounceOnly] at h
  | case7 prev cur hc re rest2 hre ih =>
    obtain ⟨rfl, rfl⟩ := hc
    cases re with
    | zero => exact absurd rfl hre
    | succ k =>
      rw [bounceOnly.eq_def] at h
      simp at h
      show (pollLoop env 0 rest2).1 = []
      exact ih h
  | case8 prev cur rest hc ih =>
    rw [bounceOnly.eq_def] at h
    simp only [] at h
    rw [if_neg hc] at h
    rw [pollLoop.eq_def]
    simp only []
    rw [if_neg hc]
    exact ih h

/-- `poll_button` always prints its banner first, on every path. -/
theorem pollBanner_mem (env : CmdEnv) (r0 : PollRead) (reads : List PollRead) :
    Act.print pollBanner ∈ (poll_button env r0 reads).1 := by
  cases r0 with
  | err e => simp [poll_button]
  | val p0 =>
    cases h : (pollLoop env p0 reads).2 with
    | ended => simp [poll_button, h]
    | raised e =>
      by_cases he : e.isException <;> simp [poll_button, h, he]


/-- Claim C1, counterexample: a read trace with two separate sustained
high-to-low transitions (initial `prev_state` reading `1`, then
`twoPressTrace`) makes the polling fallback invoke the Shutdown Sequence
twice, not exactly once; the polling path consults no flag at all. -/
theorem C1_counterexample :
    shutdownStarts (poll_button cmdsOk (PollRead.val 1) twoPressTrace).1 = 2 ∧
    ¬ shutdownStarts (poll_button cmdsOk (PollRead.val 1) twoPressTrace).1 = 1 := by
  decide

/-- Claim C1, amended: in the event-callback path the `shutdown_triggered`
flag guarantees that any positive number of callback invocations runs
`shutdown_system` exactly once; the polling fallback path does not consult
the flag and invokes `shutdown_system` once per confirmed sustained
high-to-low transition of the read trace, so it runs the sequence exactly
once only for traces with exactly one confirmed transition. -/
theorem C1_amended_flag_guards_event_path_only (n : Nat) (hn : 1 ≤ n)
    (prev : Nat) (reads : List PollRead) :
    runCallbacks false n = 1 ∧
    shutdownStarts (pollLoop cmdsOk prev reads).1 = confirmedFalls prev reads := by
  constructor
  · obtain ⟨m, rfl⟩ : ∃ m, n = m + 1 := ⟨n - 1, by omega⟩
    simpa [runCallbacks, button_callback] using runCallbacks_of_true m
  · exact pollLoop_count prev reads

/-- Witness for the amended C1 at `n = 1` and a one-press trace. -/
theorem C1_amended_flag_guards_event_path_only_witness :
    1 ≤ 1 ∧
    (runCallbacks false 1 = 1 ∧
      shutdownStarts (pollLoop cmdsOk 1 [PollRead.val 0, PollRead.val 0]).1 =
        confirmedFalls 1 [PollRead.val 0, PollRead.val 0]) :=
  ⟨Nat.le_refl 1,
    C1_amended_flag_guards_event_path_only 1 (Nat.le_refl 1) 1
      [PollRead.val 0, PollRead.val 0]⟩

/-- Claim C2: when the broadcast and sync commands spawn successfully, one
invocation of `shutdown_system` performs exactly one broadcast call, one
filesystem-sync call and one power-off call, in that order (the whole
trace is the banner print followed by `wall`, `sync`, `halt`, each exactly
once, with no retries). -/
theorem C2_one_wall_one_sync_one_halt_in_order (env : CmdEnv)
    (hw : env.wall.isExit = true) (hs : env.sync.isExit = true) :
    (shutdown_system env).1 = shutdownTrace ∧
    (shutdown_system env).1.count (Act.runCmd wallCmd) = 1 ∧
    (shutdown_system env).1.count (Act.runCmd syncCmd) = 1 ∧
    (shutdown_system env).1.count (Act.runCmd haltCmd) = 1 := by
  obtain ⟨w, s, h⟩ := env
  have ht : (shutdown_system ⟨w, s, h⟩).1 = shutdownTrace := by
    cases w with
    | spawnFail e => simp [CmdOutcome.isExit] at hw
    | exit cw =>
      cases s with
      | spawnFail e => simp [CmdOutcome.isExit] at hs
      | exit cs => cases h <;> rfl
  refine ⟨ht, ?_, ?_, ?_⟩ <;> rw [ht] <;> decide

/-- Witness for C2 with all commands succeeding. -/
theorem C2_one_wall_one_sync_one_halt_in_order_witness :
    (cmdsOk.wall.isExit = true ∧ cmdsOk.sync.isExit = true) ∧
    ((shutdown_system cmdsOk).1 = shutdownTrace ∧
      (shutdown_system cmdsOk).1.count (Act.runCmd wallCmd) = 1 ∧
      (shutdown_system cmdsOk).1.count (Act.runCmd syncCmd) = 1 ∧
      (shutdown_system cmdsOk).1.count (Act.runCmd haltCmd) = 1) :=
  ⟨⟨rfl, rfl⟩, C2_one_wall_one_sync_one_halt_in_order cmdsOk rfl rfl⟩

/-- Claim C3, counterexample: if the broadcast command is unavailable
(`subprocess.run` raises `FileNotFoundError` while spawning it), the
exception propagates out of `shutdown_system` and the sync and power-off
steps are never attempted. -/
theorem C3_counterexample :
    (shutdown_system ⟨CmdOutcome.spawnFail fileNotFoundExc, CmdOutcome.exit 0,
        CmdOutcome.exit 0⟩).1 =
      [Act.print shutdownBanner, Act.runCmd wallCmd] ∧
    Act.runCmd syncCmd ∉ (shutdown_system ⟨CmdOutcome.spawnFail fileNotFoundExc,
        CmdOutcome.exit 0, CmdOutcome.exit 0⟩).1 ∧
    Act.runCmd haltCmd ∉ (shutdown_system ⟨CmdOutcome.spawnFail fileNotFoundExc,
        CmdOutcome.exit 0, CmdOutcome.exit 0⟩).1 ∧
    (shutdown_system ⟨CmdOutcome.spawnFail fileNotFoundExc, CmdOutcome.exit 0,
        CmdOutcome.exit 0⟩).2 = some fileNotFoundExc := by
  decide

/-- Claim C3, amended: a broadcast command that spawns and exits with any
status, including a failure status, does not prevent the sync step (and,
when sync also spawns, the power-off step) from being attempted. -/
theorem C3_amended_broadcast_exit_failure_does_not_block (env : CmdEnv) (cw : Int)
    (hw : env.wall = CmdOutcome.exit cw) (hs : env.sync.isExit = true) :
    Act.runCmd syncCmd ∈ (shutdown_system env).1 ∧
    Act.runCmd haltCmd ∈ (shutdown_system env).1 := by
  obtain ⟨w, s, h⟩ := env
  simp only [CmdEnv.wall] at hw
  subst hw
  cases s with
  | spawnFail e => simp [CmdOutcome.isExit] at hs
  | exit cs => cases h <;> simp [shutdown_system]

/-- Witness for the amended C3 with a broadcast exiting with status 1. -/
theorem C3_amended_broadcast_exit_failure_does_not_block_witness :
    ((⟨CmdOutcome.exit 1, CmdOutcome.exit 0, CmdOutcome.exit 0⟩ : CmdEnv).wall =
        CmdOutcome.exit 1 ∧
      (⟨CmdOutcome.exit 1, CmdOutcome.exit 0, CmdOutcome.exit 0⟩ : CmdEnv).sync.isExit = true) ∧
    (Act.runCmd syncCmd ∈
        (shutdown_system ⟨CmdOutcome.exit 1, CmdOutcome.exit 0, CmdOutcome.exit 0⟩).1 ∧
      Act.runCmd haltCmd ∈
        (shutdown_system ⟨CmdOutcome.exit 1, CmdOutcome.exit 0, CmdOutcome.exit 0⟩).1) :=
  ⟨⟨rfl, rfl⟩,
    C3_amended_broadcast_exit_failure_does_not_block
      ⟨CmdOutcome.exit 1, CmdOutcome.exit 0, CmdOutcome.exit 0⟩ 1 rfl rfl⟩

/-- Claim C4: on any bounce-only read trace (every observed high-to-low
transition reads high again at the debounce re-sample), the polling loop
emits no actions and never invokes the Shutdown Sequence. -/
theorem C4_bounce_never_triggers (env : CmdEnv) (prev : Nat)
    (reads : List PollRead) (h : bounceOnly prev reads = true) :
    (pollLoop env prev reads).1 = [] ∧
    shutdownStarts (pollLoop env prev reads).1 = 0 := by
  have ht := pollLoop_bounce_trace env prev reads h
  exact ⟨ht, by rw [ht]; rfl⟩

/-- Witness for C4 on the bounce trace high, low, high (within the
debounce window). -/
theorem C4_bounce_never_triggers_witness :
    bounceOnly 1 [PollRead.val 0, PollRead.val 1] = true ∧
    ((pollLoop cmdsOk 1 [PollRead.val 0, PollRead.val 1]).1 = [] ∧
      shutdownStarts (pollLoop cmdsOk 1 [PollRead.val 0, PollRead.val 1]).1 = 0) :=
  ⟨by decide, C4_bounce_never_triggers cmdsOk 1 [PollRead.val 0, PollRead.val 1] (by decide)⟩

/-- Claim C5 (code bug): in a root run, `main` configures the pin with
`GPIO.setup(BUTTON_PIN, GPIO.IN)` and no `pull_up_down` argument, i.e.
the default `PUD_OFF`; no pull-up configuration ever appears in the trace,
contrary to the claim (and to the header comment of the script, which says
the internal pull-up resistor `PUD_UP` is used). -/
theorem C5_setup_has_no_internal_pullup :
    Act.gpioSetup Pud.off ∈ (mainRun mEnvRoot).1 ∧
    Act.gpioSetup Pud.up ∉ (mainRun mEnvRoot).1 := by
  decide

/-- Claim C6: without root privilege, `main` prints the diagnostic and
exits with code 1; its whole trace is that single print, so no pin I/O
(GPIO setup, read or event registration) is attempted. -/
theorem C6_nonroot_exits_1_without_pin_io (m : MEnv) (h : m.euid ≠ 0) :
    mainRun m = ([Act.print rootMsg], MainOutcome.exited 1) ∧
    ∀ a ∈ (mainRun m).1, isPinIO a = false := by
  have hm : mainRun m = ([Act.print rootMsg], MainOutcome.exited 1) := by
    simp [mainRun, h]
  refine ⟨hm, ?_⟩
  intro a ha
  rw [hm] at ha
  simp only [List.mem_singleton] at ha
  subst ha
  rfl

/-- Witness for C6 at euid 1000. -/
theorem C6_nonroot_exits_1_without_pin_io_witness :
    mEnvUser.euid ≠ 0 ∧
    (mainRun mEnvUser = ([Act.print rootMsg], MainOutcome.exited 1) ∧
      ∀ a ∈ (mainRun mEnvUser).1, isPinIO a = false) :=
  ⟨by decide, C6_nonroot_exits_1_without_pin_io mEnvUser (by decide)⟩

/-- Claim C7: the handler registered for SIGTERM and SIGINT releases the
pin (`GPIO.cleanup`) and exits with status 0, for any signal number; its
trace contains no `shutdown_system` invocation and no external command,
and `main` (run as root) registers it for both signals before arming. -/
theorem C7_signal_handler_cleanup_exit0 (signum : Nat) (frame : Unit) :
    cleanup_handler signum frame = ([Act.gpioCleanup], 0) ∧
    Act.gpioCleanup ∈ (cleanup_handler signum frame).1 ∧
    shutdownStarts (cleanup_handler signum frame).1 = 0 ∧
    (cleanup_handler signum frame).1.filter isRunAct = [] ∧
    Act.registerSignal "SIGTERM" ∈ (mainRun mEnvRoot).1 ∧
    Act.registerSignal "SIGINT" ∈ (mainRun mEnvRoot).1 := by
  refine ⟨rfl, ?_, rfl, rfl, ?_, ?_⟩
  · simp [cleanup_handler]
  · decide
  · decide

/-- Claim C8, counterexample: if `GPIO.add_event_detect` raises an
`OSError` (a platform error that is not a `RuntimeError`), `main` does
not fall back to polling — the polling banner never appears — and instead
the outer handler logs a setup error and the process exits. -/
theorem C8_counterexample :
    Act.print pollBanner ∉ (mainRun mEnvOsError).1 ∧
    (mainRun mEnvOsError).2 = MainOutcome.exited 0 ∧
    Act.print ("Setup error: " ++ osErrorExc.name) ∈ (mainRun mEnvOsError).1 := by
  decide

/-- Claim C8, amended: only when edge-detection registration raises a
`RuntimeError` does `main` log the failure reason and fall back to the
polling detector (removing the event registration and entering
`poll_button`). -/
theorem C8_amended_runtime_error_falls_back (m : MEnv) (e : Exc)
    (h0 : m.euid = 0) (h1 : m.edge = some e) (h2 : e.isRuntimeError = true) :
    Act.print ("Edge detection failed: " ++ e.name) ∈ (mainRun m).1 ∧
    Act.print fallbackMsg ∈ (mainRun m).1 ∧
    Act.removeEventDetect ∈ (mainRun m).1 ∧
    Act.print pollBanner ∈ (mainRun m).1 := by
  have hb := pollBanner_mem m.cmds m.r0 m.reads
  cases hp : (poll_button m.cmds m.r0 m.reads).2 with
  | none =>
    refine ⟨?_, ?_, ?_, ?_⟩ <;> simp [mainRun, h0, h1, h2, hp] <;> tauto
  | some e2 =>
    by_cases he : e2.isException <;>
      (refine ⟨?_, ?_, ?_, ?_⟩ <;> simp [mainRun, h0, h1, h2, hp, he] <;> tauto)

/-- Witness for the amended C8: edge detection fails with `RuntimeError`
and the idle polling fallback is entered. -/
theorem C8_amended_runtime_error_falls_back_witness :
    (mEnvEdgeFail.euid = 0 ∧ mEnvEdgeFail.edge = some edgeFailExc ∧
      edgeFailExc.isRuntimeError = true) ∧
    (Act.print ("Edge detection failed: " ++ edgeFailExc.name) ∈ (mainRun mEnvEdgeFail).1 ∧
      Act.print fallbackMsg ∈ (mainRun mEnvEdgeFail).1 ∧
      Act.removeEventDetect ∈ (mainRun mEnvEdgeFail).1 ∧
      Act.print pollBanner ∈ (mainRun mEnvEdgeFail).1) :=
  ⟨⟨rfl, rfl, by decide⟩,
    C8_amended_runtime_error_falls_back mEnvEdgeFail edgeFailExc rfl rfl (by decide)⟩

/-- Claim C9, counterexample: when the power-off command spawns but exits
with failure status 1, `shutdown_system` neither logs the failure nor
exits — it returns normally with exactly the standard four actions. -/
theorem C9_counterexample :
    shutdown_system ⟨CmdOutcome.exit 0, CmdOutcome.exit 0, CmdOutcome.exit 1⟩ =
      (shutdownTrace, none) := by
  decide

/-- Claim C9, amended: `shutdown_system` ignores the exit status of the
power-off command entirely (no log, no exit, normal return, for every
status code); only an exception raised while spawning the command
propagates to the caller. -/
theorem C9_amended_halt_exit_status_ignored (cw cs ch : Int) :
    shutdown_system ⟨CmdOutcome.exit cw, CmdOutcome.exit cs, CmdOutcome.exit ch⟩ =
      (shutdownTrace, none) ∧
    ∀ e : Exc,
      shutdown_system ⟨CmdOutcome.exit cw, CmdOutcome.exit cs, CmdOutcome.spawnFail e⟩ =
        (shutdownTrace, some e) := by
  exact ⟨rfl, fun e => rfl⟩

/-- Claim C10, counterexample: a `SystemExit` raised inside the polling
loop is not caught by the `except Exception` clause of `poll_button` — it
propagates out of `poll_button` and out of `main` (after the `finally`
cleanups), so not every exception raised in the polling loop leads to a
normal exit with status 0. -/
theorem C10_counterexample :
    (poll_button cmdsOk (PollRead.val 1) [PollRead.err sysExitExc]).2 = some sysExitExc ∧
    (mainRun mEnvSysExit).2 = MainOutcome.raisedOut sysExitExc := by
  decide

/-- Claim C10, amended: every exception deriving from `Exception` that is
raised inside the polling loop is caught inside `poll_button`, which logs
it, releases the GPIO resources and returns normally, after which `main`
(in the polling fallback configuration) returns and the process exits
with status 0. -/
theorem C10_amended_Exception_subclasses_caught (m : MEnv) (p0 : Nat) (e re : Exc)
    (h0 : m.euid = 0) (h1 : m.edge = some re) (h2 : re.isRuntimeError = true)
    (h3 : m.r0 = PollRead.val p0)
    (h4 : (pollLoop m.cmds p0 m.reads).2 = LoopRes.raised e)
    (he : e.isException = true) :
    (poll_button m.cmds m.r0 m.reads).2 = none ∧
    Act.print ("Error in polling loop: " ++ e.name) ∈ (poll_button m.cmds m.r0 m.reads).1 ∧
    Act.gpioCleanup ∈ (poll_button m.cmds m.r0 m.reads).1 ∧
    (mainRun m).2 = MainOutcome.exited 0 := by
  have hpb : poll_button m.cmds m.r0 m.reads =
      (Act.print pollBanner :: (pollLoop m.cmds p0 m.reads).1 ++
        [Act.print ("Error in polling loop: " ++ e.name), Act.gpioCleanup], none) := by
    rw [h3]
    simp [poll_button, h4, he]
  refine ⟨by rw [hpb], ?_, ?_, ?_⟩
  · rw [hpb]
    simp
  · rw [hpb]
    simp
  · simp [mainRun, h0, h1, h2, hpb]

/-- Witness for the amended C10: a `RuntimeError` from `GPIO.input` inside
the loop is caught, logged, cleaned up after, and the process exits 0. -/
theorem C10_amended_Exception_subclasses_caught_witness :
    (mEnvReadErr.euid = 0 ∧ mEnvReadErr.edge = some edgeFailExc ∧
      edgeFailExc.isRuntimeError = true ∧ mEnvReadErr.r0 = PollRead.val 1 ∧
      (pollLoop mEnvReadErr.cmds 1 mEnvReadErr.reads).2 = LoopRes.raised gpioReadExc ∧
      gpioReadExc.isException = true) ∧
    ((poll_button mEnvReadErr.cmds mEnvReadErr.r0 mEnvReadErr.reads).2 = none ∧
      Act.print ("Error in polling loop: " ++ gpioReadExc.name) ∈
        (poll_button mEnvReadErr.cmds mEnvReadErr.r0 mEnvReadErr.reads).1 ∧
      Act.gpioCleanup ∈ (poll_button mEnvReadErr.cmds mEnvReadErr.r0 mEnvReadErr.reads).1 ∧
      (mainRun mEnvReadErr).2 = MainOutcome.exited 0) :=
  ⟨⟨rfl, rfl, by decide, rfl, by decide, by decide⟩,
    C10_amended_Exception_subclasses_caught mEnvReadErr 1 gpioReadExc edgeFailExc rfl rfl
      (by decide) rfl (by decide) (by decide)⟩

end PiShutdown
